import Mathlib

/-!
# Verification of the multiple-choice quiz runner (`src/app.py`)

Shallow embedding of the quiz application's logical core:

* the QuestionBank loader's per-row validation loop
  (`load_quiz_data_from_file`),
* the quiz-session state machine (`handle_submit`, `handle_show_answer`,
  `handle_next_question`, the selection of the next question in `main`),
* the results-recording step (`record_quiz_attempt` and the one-shot
  `results_recorded` flag in `main`).

File parsing (pandas), the Streamlit rendering surface, and on-disk CSV
persistence are external to the embedding: the loader is modelled on the
list of already-parsed rows (each row the six positional string fields),
and the results store is modelled as the in-memory list of records that
the code reads, appends to, and writes back.

Python string primitives are modelled on ASCII: `str.strip()` removes the
ASCII whitespace characters, `str.upper()` maps lowercase ASCII letters to
uppercase, and `lstrip`/`rstrip` with a character set drop characters of
the set from the corresponding end.
-/

/-- The single-quote character (code 39), written via `Char.ofNat`. -/
def squote : Char := Char.ofNat 39

/-- The double-quote character (code 34), written via `Char.ofNat`. -/
def dquote : Char := Char.ofNat 34

/-- Whitespace as recognised by Python's `str.strip()` (ASCII range):
space, tab, newline, carriage return, vertical tab, form feed. -/
def isPySpace (c : Char) : Bool :=
  c == ' ' || c == Char.ofNat 9 || c == Char.ofNat 10 ||
  c == Char.ofNat 13 || c == Char.ofNat 11 || c == Char.ofNat 12

/-- The character set passed to `lstrip`/`rstrip` in
`load_quiz_data_from_file`: the double quote and the single quote. -/
def isQuoteChar (c : Char) : Bool := c == dquote || c == squote

/-- Drop the longest suffix of characters satisfying `p`
(the mirror image of `List.dropWhile`, used to model `rstrip`). -/
def dropTrailingWhile (p : Char → Bool) (l : List Char) : List Char :=
  (l.reverse.dropWhile p).reverse

/-- Python `s.strip()` on the character list of `s`. -/
def stripChars (l : List Char) : List Char :=
  dropTrailingWhile isPySpace (l.dropWhile isPySpace)

/-- Python `s.strip()`. -/
def pyStrip (s : String) : String := String.mk (stripChars s.toList)

/-- Python `s.upper()` on ASCII: uppercase each character. -/
def pyUpper (s : String) : String := String.mk (s.toList.map Char.toUpper)

/-- `src/app.py` lines 118-120: the correct-letter normalization of
`load_quiz_data_from_file` — `str(cell).strip()`, then
`.lstrip over the quote set`, then `.rstrip over the quote set`, then
`.upper()`. -/
def normalizeCorrectLetter (s : String) : String :=
  String.mk
    ((dropTrailingWhile isQuoteChar
      ((stripChars s.toList).dropWhile isQuoteChar)).map Char.toUpper)

/-- Python `s.strip().upper()`, used by `check_answer`. -/
def pyStripUpper (s : String) : String :=
  String.mk ((stripChars s.toList).map Char.toUpper)

/-! ## Data model: rows and questions -/

/-- One parsed data row of the uploaded file: the six positional string
fields (question, options A-D, correct-letter cell), as extracted with
`row.iloc[...]` in `load_quiz_data_from_file`. -/
structure Row where
  question : String
  optA : String
  optB : String
  optC : String
  optD : String
  correctRaw : String
deriving Repr, DecidableEq

/-- One validated quiz question, as built by `load_quiz_data_from_file`:
`original_index` is the 0-based data-row index in the source file. -/
structure Question where
  original_index : Nat
  question : String
  optA : String
  optB : String
  optC : String
  optD : String
  correct_option_letter : String
  correct_answer_text : String
deriving Repr, DecidableEq

/-- Lookup in the `options` dict `{A:…, B:…, C:…, D:…}` of a question:
`some` exactly when the letter is one of the four keys. -/
def Question.getOpt (q : Question) (letter : String) : Option String :=
  if letter = "A" then some q.optA
  else if letter = "B" then some q.optB
  else if letter = "C" then some q.optC
  else if letter = "D" then some q.optD
  else none

/-- The option field of a row selected by a (validated) letter, used to
fill `correct_answer_text` (`options[correct_letter]`). -/
def Row.optField (r : Row) (letter : String) : String :=
  if letter = "A" then r.optA
  else if letter = "B" then r.optB
  else if letter = "C" then r.optC
  else r.optD

/-- The keys of every question's `options` dict. -/
def validLetters : List String := ["A", "B", "C", "D"]

/-! ## The loader's row loop -/

/-- Why a row was skipped by the loader. -/
inductive WarnReason where
  | InvalidLetter
  | EmptyQuestion
deriving Repr, DecidableEq

/-- A per-row warning surfaced by the loader; `rowNumber` is the 1-based
spreadsheet row quoted in the message (`index + 2`). -/
structure RowWarning where
  rowNumber : Nat
  reason : WarnReason
deriving Repr, DecidableEq

/-- The question built from row `r` at data-row index `i` once its
normalized letter passed validation. -/
def mkQuestion (i : Nat) (r : Row) (letter : String) : Question :=
  { original_index := i
    question := r.question
    optA := r.optA
    optB := r.optB
    optC := r.optC
    optD := r.optD
    correct_option_letter := letter
    correct_answer_text := r.optField letter }

/-- `src/app.py` lines 110-140: the `for index, row in df.iterrows()` loop.
Returns the warnings and the surviving questions, in row order. The
letter test `correct_letter not in options` is membership in the four
option keys; the text test is `not question_text.strip()`. -/
def processRows : Nat → List Row → (List RowWarning × List Question)
  | _, [] => ([], [])
  | i, r :: rest =>
    let res := processRows (i + 1) rest
    let correct_letter := normalizeCorrectLetter r.correctRaw
    if correct_letter ∉ validLetters then
      (⟨i + 2, WarnReason.InvalidLetter⟩ :: res.1, res.2)
    else if pyStrip r.question = "" then
      (⟨i + 2, WarnReason.EmptyQuestion⟩ :: res.1, res.2)
    else
      (res.1, mkQuestion i r correct_letter :: res.2)

/-- The fatal load failures of `load_quiz_data_from_file` (each reported
with `st.error` and a `None` return). `UnsupportedFormat` and
`TooFewColumns` concern the file container and column count, which the
embedding takes as given. -/
inductive LoadError where
  | UnsupportedFormat
  | EmptyFile
  | TooFewColumns
  | NoValidQuestions
deriving Repr, DecidableEq

/-- `src/app.py` lines 95-146 on the already-parsed rows: empty table →
`EmptyFile`; zero surviving questions → `NoValidQuestions`; otherwise the
ordered bank. -/
def load_quiz_data (rows : List Row) : Except LoadError (List Question) :=
  if rows.isEmpty then Except.error LoadError.EmptyFile
  else
    let qs := (processRows 0 rows).2
    if qs.isEmpty then Except.error LoadError.NoValidQuestions
    else Except.ok qs

/-! ## The quiz-session state machine -/

/-- An entry of the correct log (`QK_CORRECT_QUESTIONS`). -/
structure CorrectEntry where
  question : String
  correctAnswer : String
deriving Repr, DecidableEq

/-- An entry of the incorrect log (`QK_INCORRECT_QUESTIONS`):
question text, correct answer text, and the user's answer text. -/
structure IncorrectEntry where
  question : String
  correctAnswer : String
  yourAnswer : String
deriving Repr, DecidableEq

/-- The quiz-state dictionary `st.session_state[SS_QUIZ_DATA]`.
`used_questions` is the Python set of original indices. -/
structure QuizState where
  started : Bool
  correct_count : Nat
  incorrect_count : Nat
  correct_questions : List CorrectEntry
  incorrect_questions : List IncorrectEntry
  show_answer : Bool
  user_selected_option : Option String
  submitted : Bool
  show_answer_clicked : Bool
  used_questions : Finset Nat
  last_answer_correct : Option Bool
deriving DecidableEq

/-- `_get_default_quiz_state()` (`src/app.py` lines 47-63). -/
def defaultQuizState : QuizState :=
  { started := true
    correct_count := 0
    incorrect_count := 0
    correct_questions := []
    incorrect_questions := []
    show_answer := false
    user_selected_option := none
    submitted := false
    show_answer_clicked := false
    used_questions := ∅
    last_answer_correct := none }

/-- `check_answer` (`src/app.py` lines 201-205): `None` is incorrect;
otherwise a trimmed, case-insensitive comparison of the letters. -/
def check_answer (user : Option String) (correct : String) : Bool :=
  match user with
  | none => false
  | some u => pyStripUpper u == pyStripUpper correct

/-- The `user_answer_text` computed in `handle_incorrect_answer`
(`src/app.py` lines 214-216): the option text of the selected letter when
the letter is truthy and a key of the question's `options`, else
`"No answer"`. -/
def userAnswerText (card : Question) (letter : Option String) : String :=
  match letter with
  | none => "No answer"
  | some l =>
    if l ≠ "" then
      match card.getOpt l with
      | some t => t
      | none => "No answer"
    else "No answer"

/-- `handle_incorrect_answer` (`src/app.py` lines 208-222): when the card
is not yet used, increment `incorrect_count` and append to the incorrect
log; otherwise do nothing. -/
def handle_incorrect_answer (card : Question) (letter : Option String)
    (qd : QuizState) : QuizState :=
  if card.original_index ∈ qd.used_questions then qd
  else
    { qd with
      incorrect_count := qd.incorrect_count + 1
      incorrect_questions := qd.incorrect_questions ++
        [{ question := card.question
           correctAnswer := card.correct_answer_text
           yourAnswer := userAnswerText card letter }] }

/-- `handle_submit` (`src/app.py` lines 225-255): evaluate the pending
selection, store the outcome in `last_answer_correct`, do the guarded
count/log bookkeeping, then set `submitted`, `show_answer`, and add the
card's `original_index` to `used_questions`. -/
def handle_submit (card : Question) (qd : QuizState) : QuizState :=
  let is_correct := check_answer qd.user_selected_option card.correct_option_letter
  let qd1 : QuizState := { qd with last_answer_correct := some is_correct }
  let qd2 : QuizState :=
    if is_correct then
      if card.original_index ∈ qd1.used_questions then qd1
      else
        { qd1 with
          correct_count := qd1.correct_count + 1
          correct_questions := qd1.correct_questions ++
            [{ question := card.question
               correctAnswer := card.correct_answer_text }] }
    else
      handle_incorrect_answer card qd1.user_selected_option qd1
  { qd2 with
    submitted := true
    show_answer := true
    used_questions := insert card.original_index qd2.used_questions }

/-- `handle_show_answer` (`src/app.py` lines 258-281): when the card is
not yet used, set `last_answer_correct := false`, record it as incorrect
via `handle_incorrect_answer`, and mark it used; always set
`show_answer`, `show_answer_clicked` and `submitted`. -/
def handle_show_answer (card : Question) (qd : QuizState) : QuizState :=
  let qd1 : QuizState :=
    if card.original_index ∈ qd.used_questions then qd
    else { qd with last_answer_correct := some false }
  let qd2 : QuizState :=
    { qd1 with show_answer := true, show_answer_clicked := true }
  let qd3 : QuizState :=
    if card.original_index ∈ qd2.used_questions then qd2
    else
      let qd3a := handle_incorrect_answer card qd2.user_selected_option qd2
      { qd3a with
        used_questions := insert card.original_index qd3a.used_questions }
  { qd3 with submitted := true }

/-- `handle_next_question` (`src/app.py` lines 284-296): clear the
question-scoped flags and the pending selection (the stored current index
is cleared at the session level). -/
def handle_next_question (qd : QuizState) : QuizState :=
  { qd with
    show_answer := false
    submitted := false
    show_answer_clicked := false
    user_selected_option := none
    last_answer_correct := none }

/-- The assignment `quiz_data[QK_USER_SELECTED_OPTION] = …` performed by
the main loop from the radio widget (`src/app.py` line 581). -/
def selectAnswer (letter : Option String) (qd : QuizState) : QuizState :=
  { qd with user_selected_option := letter }

/-! ## The next-question draw of `main` -/

/-- `all_indices = set(range(len(flashcards)))` (`src/app.py` line 551):
the set of *positions* in the bank list. -/
def allIndices (flashcards : List Question) : Finset Nat :=
  Finset.range flashcards.length

/-- `available_indices = all_indices - used_indices`
(`src/app.py` line 553): the candidate pool of the next-question draw.
Note that `used_questions` holds `original_index` values while
`allIndices` holds positions. -/
def availableIndices (flashcards : List Question) (qd : QuizState) : Finset Nat :=
  allIndices flashcards \ qd.used_questions

/-- A placeholder question, used only as the default of `List.headD` when
reading a card out of a concrete bank. -/
def dummyQuestion : Question :=
  { original_index := 0
    question := ""
    optA := ""
    optB := ""
    optC := ""
    optD := ""
    correct_option_letter := "A"
    correct_answer_text := "" }

/-! ## Results recording -/

/-- One row of the results CSV, as appended by `record_quiz_attempt`
(`src/app.py` lines 375-382). -/
structure ResultRecord where
  timestamp : String
  user : String
  correctCount : Nat
  incorrectCount : Nat
  totalQuestions : Nat
  incorrectDetails : String
deriving Repr, DecidableEq

/-- One `IncorrectDetails` entry (`src/app.py` lines 370-372). -/
def formatIncorrectEntry (e : IncorrectEntry) : String :=
  "Q: " ++ e.question ++ " | A: " ++ e.correctAnswer ++ " | Your: " ++ e.yourAnswer

/-- `incorrect_questions_str = "; ".join(incorrect_details)`
(`src/app.py` lines 368-373). -/
def incorrectDetailsStr (qd : QuizState) : String :=
  String.intercalate "; " (qd.incorrect_questions.map formatIncorrectEntry)

/-- `record_quiz_attempt` (`src/app.py` lines 353-384), on the in-memory
record list. `user` is `st.session_state.get(SS_USER, "Unknown")`
(`none` when the key is unset); the guard `not user or user == "Unknown"`
returns without appending. -/
def record_quiz_attempt (user : Option String) (timestamp : String)
    (flashcards : List Question) (qd : QuizState)
    (results : List ResultRecord) : List ResultRecord :=
  let u := user.getD "Unknown"
  if u = "" ∨ u = "Unknown" then results
  else
    results ++
      [{ timestamp := timestamp
         user := u
         correctCount := qd.correct_count
         incorrectCount := qd.incorrect_count
         totalQuestions := flashcards.length
         incorrectDetails := incorrectDetailsStr qd }]

/-- The quiz-completion branch of `main` (`src/app.py` lines 556-560):
when `results_recorded` is absent, call `record_quiz_attempt` and set the
flag; when present, do nothing. Returns the flag and the record list. -/
def finishStep (user : Option String) (timestamp : String)
    (flashcards : List Question) (qd : QuizState) (recorded : Bool)
    (results : List ResultRecord) : Bool × List ResultRecord :=
  if recorded then (true, results)
  else (true, record_quiz_attempt user timestamp flashcards qd results)

/-! ## Concrete instances used by the scenario theorems and witnesses -/

/-- A data row whose correct-letter cell is `E`: skipped by the loader. -/
def rowE : Row :=
  { question := "Q one"
    optA := "a one", optB := "b one", optC := "c one", optD := "d one"
    correctRaw := "E" }

/-- A valid data row with correct letter `A`. -/
def rowG : Row :=
  { question := "Q two"
    optA := "a two", optB := "b two", optC := "c two", optD := "d two"
    correctRaw := "A" }

/-- The bank loaded from the two-row file `[rowE, rowG]`: row 0 is
skipped, so the single surviving question has `original_index = 1` while
it sits at position 0 of the bank. -/
def bankSkew : List Question := (processRows 0 [rowE, rowG]).2

/-- The single question of `bankSkew`, read at position 0 as
`flashcards[current_card_index]` does. -/
def cardSkew : Question := bankSkew.headD dummyQuestion

/-- The session state after the only question of `bankSkew` is answered:
select `A` (the correct letter) and submit. -/
def qdSkew : QuizState := handle_submit cardSkew (selectAnswer (some "A") defaultQuizState)

/-- First question of the two-question scenario bank. -/
def qEasy : Question :=
  { original_index := 0
    question := "What is one plus one"
    optA := "2", optB := "3", optC := "4", optD := "5"
    correct_option_letter := "A"
    correct_answer_text := "2" }

/-- Second question of the two-question scenario bank. -/
def qCap : Question :=
  { original_index := 1
    question := "Capital of France"
    optA := "Rome", optB := "Paris", optC := "Berlin", optD := "Madrid"
    correct_option_letter := "B"
    correct_answer_text := "Paris" }

/-- A two-question bank with no skipped rows. -/
def bankTwo : List Question := [qEasy, qCap]

/-- Running the two-question attempt: answer `qEasy` correctly with `A`,
advance, then answer `qCap` incorrectly with `C`. -/
def qdTwoDone : QuizState :=
  handle_submit qCap (selectAnswer (some "C")
    (handle_next_question
      (handle_submit qEasy (selectAnswer (some "A") defaultQuizState))))

/-- A placeholder record, used only as the default of `List.headD`. -/
def dummyRecord : ResultRecord :=
  { timestamp := ""
    user := ""
    correctCount := 0
    incorrectCount := 0
    totalQuestions := 0
    incorrectDetails := "" }

/-- The record list produced by the Finished transition of the
two-question attempt, starting from an empty store. -/
def recsTwo : List ResultRecord :=
  (finishStep (some "Ada") "2026-10-12T00:00:00" bankTwo qdTwoDone false []).2

/-! ## Helper lemmas -/

/-- `dropWhile` is the identity on a list none of whose characters
satisfy the predicate. -/
theorem dropWhile_eq_self_of_forall (p : Char → Bool) (l : List Char)
    (h : ∀ c ∈ l, p c = false) : l.dropWhile p = l := by
  cases l with
  | nil => rfl
  | cons c t => simp [List.dropWhile_cons, h c (by simp)]

/-- `dropWhile` eats a leading block of characters satisfying the
predicate. -/
theorem dropWhile_replicate_append (p : Char → Bool) (a : Char)
    (hp : p a = true) (n : Nat) (l : List Char) :
    List.dropWhile p (List.replicate n a ++ l) = List.dropWhile p l := by
  induction n with
  | zero => simp
  | succ k ih => simp [List.replicate_succ, List.dropWhile_cons, hp, ih]

/-- The letter `B` wrapped in `n` layers of double quotes on each side. -/
def quotedB (n : Nat) : String :=
  String.mk (List.replicate n dquote ++ 'B' :: List.replicate n dquote)

/-- The loader's normalization strips every layer of surrounding quotes:
`B` wrapped in any number of quote layers normalizes to `B`. -/
theorem normalizeCorrectLetter_quotedB (n : Nat) :
    normalizeCorrectLetter (quotedB n) = "B" := by
  have hmem : ∀ c ∈ List.replicate n dquote ++ 'B' :: List.replicate n dquote,
      isPySpace c = false := by
    intro c hc
    rcases List.mem_append.mp hc with h | h
    · rw [List.eq_of_mem_replicate h]; decide
    · rcases List.mem_cons.mp h with h | h
      · rw [h]; decide
      · rw [List.eq_of_mem_replicate h]; decide
  have hstrip : stripChars (List.replicate n dquote ++ 'B' :: List.replicate n dquote) =
      List.replicate n dquote ++ 'B' :: List.replicate n dquote := by
    unfold stripChars dropTrailingWhile
    rw [dropWhile_eq_self_of_forall _ _ hmem,
      dropWhile_eq_self_of_forall _ _ (by intro c hc; exact hmem c (List.mem_reverse.mp hc)),
      List.reverse_reverse]
  have hq : isQuoteChar dquote = true := by decide
  have hdrop1 : List.dropWhile isQuoteChar
      (List.replicate n dquote ++ 'B' :: List.replicate n dquote) =
      'B' :: List.replicate n dquote := by
    rw [dropWhile_replicate_append _ _ hq, List.dropWhile_cons]
    simp [show isQuoteChar 'B' = false from by decide]
  have hdrop2 : dropTrailingWhile isQuoteChar ('B' :: List.replicate n dquote) = ['B'] := by
    unfold dropTrailingWhile
    rw [List.reverse_cons, List.reverse_replicate,
      dropWhile_replicate_append _ _ hq]
    rfl
  show String.mk _ = "B"
  rw [show (quotedB n).toList = List.replicate n dquote ++ 'B' :: List.replicate n dquote from rfl,
    hstrip, hdrop1, hdrop2]
  rfl

/-- The session invariant of the spec: the tallies sum to the size of the
used set, and every used index is the `original_index` of a bank
question. -/
def sessionInv (bank : List Question) (qd : QuizState) : Prop :=
  qd.correct_count + qd.incorrect_count = qd.used_questions.card ∧
  ∀ i ∈ qd.used_questions, ∃ q ∈ bank, q.original_index = i

instance (bank : List Question) (qd : QuizState) : Decidable (sessionInv bank qd) := by
  unfold sessionInv
  infer_instance

/-- `sessionInv` holds in the freshly reset state. -/
theorem sessionInv_default (bank : List Question) : sessionInv bank defaultQuizState := by
  constructor <;> simp [defaultQuizState]

/-- `handle_submit` preserves the session invariant when the submitted
card belongs to the bank. -/
theorem sessionInv_handle_submit (bank : List Question) (card : Question)
    (qd : QuizState) (hcard : card ∈ bank) (h : sessionInv bank qd) :
    sessionInv bank (handle_submit card qd) := by
  obtain ⟨hc, hsub⟩ := h
  have hstep : ∀ i ∈ insert card.original_index qd.used_questions,
      ∃ q ∈ bank, q.original_index = i := by
    intro i hi
    rcases Finset.mem_insert.mp hi with hi | hi
    · exact ⟨card, hcard, hi.symm⟩
    · exact hsub i hi
  by_cases hm : card.original_index ∈ qd.used_questions
  · cases hok : check_answer qd.user_selected_option card.correct_option_letter <;>
      simp only [handle_submit, handle_incorrect_answer, hok, hm, if_true, if_false,
        Bool.false_eq_true, ite_true, ite_false] <;>
      exact ⟨by simpa [Finset.insert_eq_self.mpr hm] using hc,
        by simpa [Finset.insert_eq_self.mpr hm] using hsub⟩
  · have hcard1 : (insert card.original_index qd.used_questions).card =
        qd.used_questions.card + 1 := Finset.card_insert_of_not_mem hm
    cases hok : check_answer qd.user_selected_option card.correct_option_letter <;>
      simp only [handle_submit, handle_incorrect_answer, hok, hm, if_true, if_false,
        Bool.false_eq_true, ite_true, ite_false] <;>
      exact ⟨by simp only [hcard1]; omega, hstep⟩

/-- `handle_show_answer` preserves the session invariant when the
revealed card belongs to the bank. -/
theorem sessionInv_handle_show_answer (bank : List Question) (card : Question)
    (qd : QuizState) (hcard : card ∈ bank) (h : sessionInv bank qd) :
    sessionInv bank (handle_show_answer card qd) := by
  obtain ⟨hc, hsub⟩ := h
  by_cases hm : card.original_index ∈ qd.used_questions
  · simp only [handle_show_answer, hm, if_true, ite_true]
    exact ⟨hc, hsub⟩
  · have hcard1 : (insert card.original_index qd.used_questions).card =
        qd.used_questions.card + 1 := Finset.card_insert_of_not_mem hm
    simp only [handle_show_answer, handle_incorrect_answer, hm, if_false, ite_false]
    refine ⟨by simp only [hcard1]; omega, ?_⟩
    intro i hi
    rcases Finset.mem_insert.mp hi with hi | hi
    · exact ⟨card, hcard, hi.symm⟩
    · exact hsub i hi

/-- Counts and logs agree between two states. -/
def countsAndLogsEq (a b : QuizState) : Prop :=
  a.correct_count = b.correct_count ∧
  a.incorrect_count = b.incorrect_count ∧
  a.correct_questions = b.correct_questions ∧
  a.incorrect_questions = b.incorrect_questions

instance (a b : QuizState) : Decidable (countsAndLogsEq a b) := by
  unfold countsAndLogsEq
  infer_instance

/-- After `handle_submit`, the card's index is in the used set. -/
theorem submit_mem_used (card : Question) (qd : QuizState) :
    card.original_index ∈ (handle_submit card qd).used_questions := by
  simp only [handle_submit]
  exact Finset.mem_insert_self _ _

/-- After `handle_show_answer`, the card's index is in the used set. -/
theorem show_answer_mem_used (card : Question) (qd : QuizState) :
    card.original_index ∈ (handle_show_answer card qd).used_questions := by
  by_cases hm : card.original_index ∈ qd.used_questions <;>
    simp [handle_show_answer, handle_incorrect_answer, hm, Finset.mem_insert_self]

/-- On an already-used card, `handle_submit` leaves counts and logs
unchanged. -/
theorem submit_used_frame (card : Question) (qd : QuizState)
    (hm : card.original_index ∈ qd.used_questions) :
    countsAndLogsEq (handle_submit card qd) qd := by
  cases hok : check_answer qd.user_selected_option card.correct_option_letter <;>
    simp [countsAndLogsEq, handle_submit, handle_incorrect_answer, hok, hm]

/-- On an already-used card, `handle_show_answer` leaves counts and logs
unchanged. -/
theorem show_answer_used_frame (card : Question) (qd : QuizState)
    (hm : card.original_index ∈ qd.used_questions) :
    countsAndLogsEq (handle_show_answer card qd) qd := by
  simp [countsAndLogsEq, handle_show_answer, handle_incorrect_answer, hm]

/-- On an already-used card, `handle_submit` also leaves the used set
unchanged. -/
theorem submit_used_set_frame (card : Question) (qd : QuizState)
    (hm : card.original_index ∈ qd.used_questions) :
    (handle_submit card qd).used_questions = qd.used_questions := by
  cases hok : check_answer qd.user_selected_option card.correct_option_letter <;>
    simp [handle_submit, handle_incorrect_answer, hok, hm,
      Finset.insert_eq_self.mpr hm]

/-! ## The claim's one-layer normalization (for comparison) -/

/-- Drop one leading character when it satisfies the predicate. -/
def dropOneIf (p : Char → Bool) : List Char → List Char
  | [] => []
  | c :: rest => if p c then rest else c :: rest

/-- The correct-letter normalization as the claim words it: trim
whitespace, strip exactly ONE layer of leading/trailing quote
characters, uppercase. Stated from the claim's words, to be compared
with `normalizeCorrectLetter`, which is taken from the source. -/
def claimOneLayerNormalize (s : String) : String :=
  String.mk
    ((dropOneIf isQuoteChar
      ((dropOneIf isQuoteChar (stripChars s.toList)).reverse)).reverse.map
        Char.toUpper)

/-! ## Claim theorems -/

/-- C1: the claim says the next-question draw never selects a question
already resolved in this attempt and that an empty available set ends the
session — including when skipped rows make `original_index` differ from
bank position. The code violates this: `available_indices` subtracts the
set of used `original_index` values from the set of bank *positions*. On
the bank loaded from `[rowE, rowG]` (row 0 skipped, so the only question
sits at position 0 with `original_index = 1`), after that question is
answered the available set is still `{0}`, the session does not finish,
and the draw can only re-select position 0, whose question is already
resolved. -/
theorem quiz_C1_draw_reoffers_resolved_question :
    bankSkew.length = 1 ∧
    cardSkew.original_index = 1 ∧
    (∀ q ∈ bankSkew, q.original_index ∈ qdSkew.used_questions) ∧
    availableIndices bankSkew qdSkew = {0} ∧
    availableIndices bankSkew qdSkew ≠ ∅ ∧
    (bankSkew.headD dummyQuestion).original_index ∈ qdSkew.used_questions := by
  exact ⟨by decide, by decide, by decide, by decide, by decide, by decide⟩

/-- C2: after every operation of the session (reset to the default state,
selecting an answer, submit, reveal, advance), the invariant holds:
`correct_count + incorrect_count = |used|`, and every used index is the
`original_index` of some bank question. -/
theorem quiz_C2_session_invariant (bank : List Question) (card : Question)
    (letter : Option String) (qd : QuizState)
    (hcard : card ∈ bank) (hinv : sessionInv bank qd) :
    sessionInv bank defaultQuizState ∧
    sessionInv bank (selectAnswer letter qd) ∧
    sessionInv bank (handle_submit card qd) ∧
    sessionInv bank (handle_show_answer card qd) ∧
    sessionInv bank (handle_next_question qd) := by
  refine ⟨sessionInv_default bank, ?_,
    sessionInv_handle_submit bank card qd hcard hinv,
    sessionInv_handle_show_answer bank card qd hcard hinv, ?_⟩
  · exact ⟨hinv.1, hinv.2⟩
  · exact ⟨hinv.1, hinv.2⟩

/-- C2 witness: the invariant statement instantiated on the two-question
bank and the default state. -/
theorem quiz_C2_session_invariant_witness :
    (qEasy ∈ bankTwo ∧ sessionInv bankTwo defaultQuizState) ∧
    (sessionInv bankTwo defaultQuizState ∧
     sessionInv bankTwo (selectAnswer (some "A") defaultQuizState) ∧
     sessionInv bankTwo (handle_submit qEasy defaultQuizState) ∧
     sessionInv bankTwo (handle_show_answer qEasy defaultQuizState) ∧
     sessionInv bankTwo (handle_next_question defaultQuizState)) :=
  ⟨⟨by decide, by decide⟩,
   quiz_C2_session_invariant bankTwo qEasy (some "A") defaultQuizState
     (by decide) (by decide)⟩

/-- C3 counterexample: the claim describes the normalization as stripping
exactly ONE layer of leading/trailing quotes. On the letter `B` wrapped
in two layers of double quotes the source's normalization
(`strip`/`lstrip`/`rstrip`/`upper`) yields `B`, while the one-layer
normalization of the claim's words yields a different string. -/
theorem quiz_C3_one_layer_counterexample :
    normalizeCorrectLetter (String.mk [dquote, dquote, 'B', dquote, dquote]) = "B" ∧
    claimOneLayerNormalize (String.mk [dquote, dquote, 'B', dquote, dquote]) ≠
      normalizeCorrectLetter (String.mk [dquote, dquote, 'B', dquote, dquote]) := by
  exact ⟨by decide, by decide⟩

/-- C3 (amended): the loader's correct-letter normalization trims
whitespace, strips ALL layers of leading/trailing quote characters
(single or double), and uppercases; the inputs `B` in double quotes, `B`
in single quotes, and bare `B` (or `b`) all normalize to `B`, as does `B`
wrapped in any number of quote layers. -/
theorem quiz_C3_normalization :
    normalizeCorrectLetter (String.mk [dquote, 'B', dquote]) = "B" ∧
    normalizeCorrectLetter (String.mk [squote, 'B', squote]) = "B" ∧
    normalizeCorrectLetter "B" = "B" ∧
    normalizeCorrectLetter "b" = "B" ∧
    ∀ n : Nat, normalizeCorrectLetter (quotedB n) = "B" := by
  exact ⟨by decide, by decide, by decide, by decide, normalizeCorrectLetter_quotedB⟩

/-- C4: a row whose normalized correct-letter is not one of the four
option keys is skipped with a warning naming spreadsheet row
`index + 2`, the remaining rows are still processed, and a one-row file
whose only correct-letter field is `E` loads as `NoValidQuestions`. -/
theorem quiz_C4_invalid_letter_skip (i : Nat) (r : Row) (rest : List Row)
    (h : normalizeCorrectLetter r.correctRaw ∉ validLetters) :
    (processRows i (r :: rest)).1 =
      { rowNumber := i + 2, reason := WarnReason.InvalidLetter } ::
        (processRows (i + 1) rest).1 ∧
    (processRows i (r :: rest)).2 = (processRows (i + 1) rest).2 ∧
    load_quiz_data [rowE] = Except.error LoadError.NoValidQuestions := by
  refine ⟨?_, ?_, rfl⟩ <;> simp [processRows, h]

/-- C4 witness: the skip behaviour evaluated on the row with
correct-letter `E` at index 0. -/
theorem quiz_C4_invalid_letter_skip_witness :
    (normalizeCorrectLetter rowE.correctRaw ∉ validLetters) ∧
    ((processRows 0 (rowE :: [])).1 =
      { rowNumber := 2, reason := WarnReason.InvalidLetter } ::
        (processRows 1 []).1 ∧
     (processRows 0 (rowE :: [])).2 = (processRows 1 []).2 ∧
     load_quiz_data [rowE] = Except.error LoadError.NoValidQuestions) :=
  ⟨by decide, quiz_C4_invalid_letter_skip 0 rowE [] (by decide)⟩

/-- C5: `check_answer` treats a missing selection as incorrect and
otherwise compares the trimmed, uppercased letters; submitting a correct
selection on a not-yet-used question sets `last_answer_correct` to
`true`, increments `correct_count`, and adds the question's
`original_index` to the used set. -/
theorem quiz_C5_submit_correct (u c : String) (card : Question) (qd : QuizState)
    (hfresh : card.original_index ∉ qd.used_questions)
    (hsel : check_answer qd.user_selected_option card.correct_option_letter = true) :
    check_answer none c = false ∧
    (check_answer (some u) c = true ↔ pyStripUpper u = pyStripUpper c) ∧
    (handle_submit card qd).last_answer_correct = some true ∧
    (handle_submit card qd).correct_count = qd.correct_count + 1 ∧
    card.original_index ∈ (handle_submit card qd).used_questions := by
  refine ⟨rfl, by simp [check_answer], ?_, ?_, submit_mem_used card qd⟩ <;>
    simp [handle_submit, hsel, hfresh]

/-- C5 witness: submitting the selected letter `A` on the first question
of the two-question bank in the fresh state. -/
theorem quiz_C5_submit_correct_witness :
    (qEasy.original_index ∉ (selectAnswer (some "A") defaultQuizState).used_questions ∧
     check_answer (selectAnswer (some "A") defaultQuizState).user_selected_option
       qEasy.correct_option_letter = true) ∧
    (check_answer none "A" = false ∧
     (check_answer (some "a ") "A" = true ↔ pyStripUpper "a " = pyStripUpper "A") ∧
     (handle_submit qEasy (selectAnswer (some "A") defaultQuizState)).last_answer_correct =
       some true ∧
     (handle_submit qEasy (selectAnswer (some "A") defaultQuizState)).correct_count =
       (selectAnswer (some "A") defaultQuizState).correct_count + 1 ∧
     qEasy.original_index ∈
       (handle_submit qEasy (selectAnswer (some "A") defaultQuizState)).used_questions) :=
  ⟨⟨by decide, by decide⟩,
   quiz_C5_submit_correct "a " "A" qEasy (selectAnswer (some "A") defaultQuizState)
     (by decide) (by decide)⟩

/-- On a fresh card, `handle_submit` increments the combined tally by
exactly one. -/
theorem submit_fresh_total (card : Question) (qd : QuizState)
    (hfresh : card.original_index ∉ qd.used_questions) :
    (handle_submit card qd).correct_count + (handle_submit card qd).incorrect_count =
      qd.correct_count + qd.incorrect_count + 1 := by
  cases hok : check_answer qd.user_selected_option card.correct_option_letter <;>
    simp [handle_submit, handle_incorrect_answer, hok, hfresh] <;> omega

/-- C6: once a question's `original_index` is in the used set, neither
submit nor reveal changes counts or logs again; on a fresh question,
submit-then-reveal and reveal-then-submit affect counts and logs exactly
once: the first action adds exactly one to the combined tally and the
second action is a no-op on counts and logs. -/
theorem quiz_C6_no_double_count (card : Question) (qd qdF : QuizState)
    (hused : card.original_index ∈ qd.used_questions)
    (hfresh : card.original_index ∉ qdF.used_questions) :
    countsAndLogsEq (handle_submit card qd) qd ∧
    countsAndLogsEq (handle_show_answer card qd) qd ∧
    ((handle_submit card qdF).correct_count + (handle_submit card qdF).incorrect_count =
      qdF.correct_count + qdF.incorrect_count + 1) ∧
    ((handle_show_answer card qdF).incorrect_count = qdF.incorrect_count + 1) ∧
    countsAndLogsEq (handle_show_answer card (handle_submit card qdF))
      (handle_submit card qdF) ∧
    countsAndLogsEq (handle_submit card (handle_show_answer card qdF))
      (handle_show_answer card qdF) :=
  ⟨submit_used_frame card qd hused,
   show_answer_used_frame card qd hused,
   submit_fresh_total card qdF hfresh,
   by simp [handle_show_answer, handle_incorrect_answer, hfresh],
   show_answer_used_frame card (handle_submit card qdF) (submit_mem_used card qdF),
   submit_used_frame card (handle_show_answer card qdF) (show_answer_mem_used card qdF)⟩

/-- C6 witness: the double-count guard evaluated on the skew bank's card
(already used in `qdSkew`) and on the fresh default state. -/
theorem quiz_C6_no_double_count_witness :
    (cardSkew.original_index ∈ qdSkew.used_questions ∧
     cardSkew.original_index ∉ defaultQuizState.used_questions) ∧
    (countsAndLogsEq (handle_submit cardSkew qdSkew) qdSkew ∧
     countsAndLogsEq (handle_show_answer cardSkew qdSkew) qdSkew ∧
     ((handle_submit cardSkew defaultQuizState).correct_count +
        (handle_submit cardSkew defaultQuizState).incorrect_count =
      defaultQuizState.correct_count + defaultQuizState.incorrect_count + 1) ∧
     ((handle_show_answer cardSkew defaultQuizState).incorrect_count =
        defaultQuizState.incorrect_count + 1) ∧
     countsAndLogsEq (handle_show_answer cardSkew (handle_submit cardSkew defaultQuizState))
       (handle_submit cardSkew defaultQuizState) ∧
     countsAndLogsEq (handle_submit cardSkew (handle_show_answer cardSkew defaultQuizState))
       (handle_show_answer cardSkew defaultQuizState)) :=
  ⟨⟨by decide, by decide⟩,
   quiz_C6_no_double_count cardSkew qdSkew defaultQuizState (by decide) (by decide)⟩

/-- C7: revealing a not-yet-used question records an incorrect resolution
(`last_answer_correct = false`, `incorrect_count + 1`) whose logged user
answer is the option text of the pending selection when one is set and a
valid option letter, and the literal string `No answer` when no
selection is pending. -/
theorem quiz_C7_reveal_logged_answer (card : Question) (qd : QuizState)
    (l t : String) (hfresh : card.original_index ∉ qd.used_questions) :
    (qd.user_selected_option = none →
      (handle_show_answer card qd).incorrect_questions =
        qd.incorrect_questions ++
          [{ question := card.question
             correctAnswer := card.correct_answer_text
             yourAnswer := "No answer" }]) ∧
    (qd.user_selected_option = some l → card.getOpt l = some t →
      (handle_show_answer card qd).incorrect_questions =
        qd.incorrect_questions ++
          [{ question := card.question
             correctAnswer := card.correct_answer_text
             yourAnswer := t }]) ∧
    (handle_show_answer card qd).last_answer_correct = some false ∧
    (handle_show_answer card qd).incorrect_count = qd.incorrect_count + 1 := by
  refine ⟨?_, ?_, ?_, ?_⟩
  · intro hnone
    simp [handle_show_answer, handle_incorrect_answer, hfresh, hnone, userAnswerText]
  · intro hsome ht
    have hl : l ≠ "" := by
      intro h0
      rw [h0] at ht
      simp [Question.getOpt] at ht
    simp [handle_show_answer, handle_incorrect_answer, hfresh, hsome,
      userAnswerText, hl, ht]
  · simp [handle_show_answer, handle_incorrect_answer, hfresh]
  · simp [handle_show_answer, handle_incorrect_answer, hfresh]

/-- C7 witness: revealing `qCap` with pending selection `C` logs the
option text `Berlin`; the `No answer` branch is vacuously instantiated. -/
theorem quiz_C7_reveal_logged_answer_witness :
    (qCap.original_index ∉ (selectAnswer (some "C") defaultQuizState).used_questions) ∧
    (((selectAnswer (some "C") defaultQuizState).user_selected_option = none →
      (handle_show_answer qCap (selectAnswer (some "C") defaultQuizState)).incorrect_questions =
        (selectAnswer (some "C") defaultQuizState).incorrect_questions ++
          [{ question := qCap.question
             correctAnswer := qCap.correct_answer_text
             yourAnswer := "No answer" }]) ∧
     ((selectAnswer (some "C") defaultQuizState).user_selected_option = some "C" →
      qCap.getOpt "C" = some "Berlin" →
      (handle_show_answer qCap (selectAnswer (some "C") defaultQuizState)).incorrect_questions =
        (selectAnswer (some "C") defaultQuizState).incorrect_questions ++
          [{ question := qCap.question
             correctAnswer := qCap.correct_answer_text
             yourAnswer := "Berlin" }]) ∧
     (handle_show_answer qCap (selectAnswer (some "C") defaultQuizState)).last_answer_correct =
       some false ∧
     (handle_show_answer qCap (selectAnswer (some "C") defaultQuizState)).incorrect_count =
       (selectAnswer (some "C") defaultQuizState).incorrect_count + 1) :=
  ⟨by decide,
   quiz_C7_reveal_logged_answer qCap (selectAnswer (some "C") defaultQuizState)
     "C" "Berlin" (by decide)⟩

/-- C8: each Finished session triggers at most one append (a set
`results_recorded` flag makes the completion branch a no-op, any run of
the branch sets the flag and appends at most one record), and the
two-question attempt with one correct and one incorrect answer produces
a record with correct count 1, incorrect count 1, total questions 2, and
an `IncorrectDetails` string equal to the single formatted
`Q/A/Your` entry, which contains no semicolon (hence exactly one
semicolon-free segment of the semicolon-join). -/
theorem quiz_C8_single_append_and_record :
    (∀ (u : Option String) (t : String) (fc : List Question) (qd : QuizState)
       (rs : List ResultRecord), finishStep u t fc qd true rs = (true, rs)) ∧
    (∀ (u : Option String) (t : String) (fc : List Question) (qd : QuizState)
       (rs : List ResultRecord), (finishStep u t fc qd false rs).1 = true ∧
       ((finishStep u t fc qd false rs).2).length ≤ rs.length + 1) ∧
    availableIndices bankTwo qdTwoDone = ∅ ∧
    qdTwoDone.correct_count = 1 ∧
    qdTwoDone.incorrect_count = 1 ∧
    recsTwo.length = 1 ∧
    (recsTwo.headD dummyRecord).correctCount = 1 ∧
    (recsTwo.headD dummyRecord).incorrectCount = 1 ∧
    (recsTwo.headD dummyRecord).totalQuestions = 2 ∧
    (recsTwo.headD dummyRecord).incorrectDetails =
      formatIncorrectEntry
        { question := "Capital of France"
          correctAnswer := "Paris"
          yourAnswer := "Berlin" } ∧
    ((recsTwo.headD dummyRecord).incorrectDetails.toList.count ';') = 0 := by
  refine ⟨?_, ?_, by decide, by decide, by decide, by decide, by decide, by decide,
    by decide, by decide, by decide⟩
  · intro u t fc qd rs
    simp [finishStep]
  · intro u t fc qd rs
    refine ⟨by simp [finishStep], ?_⟩
    by_cases hu : (u.getD "Unknown") = "" ∨ (u.getD "Unknown") = "Unknown" <;>
      simp [finishStep, record_quiz_attempt, hu]

/-- C9: when the active user identifier is unset, empty, or exactly
`Unknown`, the recording step appends nothing, and because the
completion branch sets the one-shot `results_recorded` flag regardless,
a later run of the branch (with any user) also appends nothing. -/
theorem quiz_C9_unknown_user_never_recorded (t : String) (fc : List Question)
    (qd : QuizState) (rs : List ResultRecord) :
    record_quiz_attempt none t fc qd rs = rs ∧
    record_quiz_attempt (some "") t fc qd rs = rs ∧
    record_quiz_attempt (some "Unknown") t fc qd rs = rs ∧
    finishStep none t fc qd false rs = (true, rs) ∧
    (∀ (u : Option String) (t2 : String) (fc2 : List Question) (qd2 : QuizState),
      finishStep u t2 fc2 qd2 true rs = (true, rs)) := by
  refine ⟨?_, ?_, ?_, ?_, ?_⟩
  · simp [record_quiz_attempt]
  · simp [record_quiz_attempt]
  · simp [record_quiz_attempt]
  · simp [finishStep, record_quiz_attempt]
  · intro u t2 fc2 qd2
    simp [finishStep]

/-- C10: submitting a question whose `original_index` is already used
leaves counts, both logs, and the used set unchanged, but still
overwrites `last_answer_correct` with the fresh evaluation of the
currently pending selection. -/
theorem quiz_C10_resubmit_overwrites_outcome (card : Question) (qd : QuizState)
    (hused : card.original_index ∈ qd.used_questions) :
    (handle_submit card qd).correct_count = qd.correct_count ∧
    (handle_submit card qd).incorrect_count = qd.incorrect_count ∧
    (handle_submit card qd).correct_questions = qd.correct_questions ∧
    (handle_submit card qd).incorrect_questions = qd.incorrect_questions ∧
    (handle_submit card qd).used_questions = qd.used_questions ∧
    (handle_submit card qd).last_answer_correct =
      some (check_answer qd.user_selected_option card.correct_option_letter) := by
  obtain ⟨h1, h2, h3, h4⟩ := submit_used_frame card qd hused
  refine ⟨h1, h2, h3, h4, submit_used_set_frame card qd hused, ?_⟩
  cases hok : check_answer qd.user_selected_option card.correct_option_letter <;>
    simp [handle_submit, handle_incorrect_answer, hok, hused]

/-- C10 witness: re-submitting the skew card (already used in `qdSkew`)
leaves the tallies, logs and used set of `qdSkew` unchanged while
refreshing the outcome flag. -/
theorem quiz_C10_resubmit_overwrites_outcome_witness :
    (cardSkew.original_index ∈ qdSkew.used_questions) ∧
    ((handle_submit cardSkew qdSkew).correct_count = qdSkew.correct_count ∧
     (handle_submit cardSkew qdSkew).incorrect_count = qdSkew.incorrect_count ∧
     (handle_submit cardSkew qdSkew).correct_questions = qdSkew.correct_questions ∧
     (handle_submit cardSkew qdSkew).incorrect_questions = qdSkew.incorrect_questions ∧
     (handle_submit cardSkew qdSkew).used_questions = qdSkew.used_questions ∧
     (handle_submit cardSkew qdSkew).last_answer_correct =
       some (check_answer qdSkew.user_selected_option cardSkew.correct_option_letter)) :=
  ⟨by decide, quiz_C10_resubmit_overwrites_outcome cardSkew qdSkew (by decide)⟩
